import Mathlib

/-!
Verification of the client-side core of the blog repository: the session
store (src/utils/authStore.ts) and the comment panel (the Comments
component and its handleSubmit handler).

The embedding is shallow: each operation of the source is translated into
a pure Lean function.  Effects are made explicit in the return value:
the comment panel returns, besides its new local state, the list of
notification events it dispatched and the list of insert requests it
actually sent to the data service; the session store returns, besides its
new state, the list of listener invocations it performed (listener
identity together with the session and loading values passed).
-/

namespace Blog

/-- A signed-in user as carried by an auth session.  The code consumes only
the identifier (session.user.id in the insert call). -/
structure AuthUser where
  id : String
deriving DecidableEq

/-- An auth session.  The comment panel guards on session.user being
present; the store compares whole sessions structurally (the
JSON.stringify comparison in authStore.ts).  The token field stands for
the remaining opaque session payload, so that two sessions of the same
user can still differ structurally. -/
structure Session where
  user : Option AuthUser
  access_token : String
deriving DecidableEq

/-- Minimal profile fields joined onto a comment row
(first_name, last_name; nullable in the code, which applies a
default when they are missing). -/
structure Profile where
  first_name : Option String
  last_name : Option String
deriving DecidableEq

/-- One comment record as the panel stores it (the Comment interface of
the Comments component): body text, creation timestamp, joined profile. -/
structure Comment where
  comment_text : String
  created_at : String
  profiles : Option Profile
deriving DecidableEq

/-- The localized form messages consumed by handleSubmit
(messages.form.success and messages.form.error from the i18n table). -/
structure FormMessages where
  success : String
  error : String
deriving DecidableEq

/-- One show-notification event as dispatched by the panel: the message
and the isError flag of the event detail (isError defaults to false when
the detail omits it, as the success branch does). -/
structure Notification where
  message : String
  isError : Bool
deriving DecidableEq

/-- The row sent to the data service by the insert call of handleSubmit:
post_id, comment_text, user_id. -/
structure InsertReq where
  post_id : String
  comment_text : String
  user_id : String
deriving DecidableEq

/-- Outcome of the insert call as the code consumes it after .single():
either the created record (data non-null, error null) or an error
(data null, error non-null).  The .single() contract makes exactly one of
the two present. -/
inductive InsertResult where
  | ok (record : Comment)
  | err (message : String)
deriving DecidableEq

/-- Local state of one comment panel instance: the comment list, the
draft text of the textarea, and the isSubmitting flag. -/
structure PanelState where
  comments : List Comment
  commentText : String
  isSubmitting : Bool
deriving DecidableEq

/-- Everything one submit invocation produces: the panel state afterwards,
the notification events dispatched, and the insert requests actually sent
to the data service. -/
structure SubmitOutcome where
  state : PanelState
  notifications : List Notification
  insertCalls : List InsertReq
deriving DecidableEq

/-- Whitespace trim applied to the draft text, modelling the trim call of
the JS string type: strips leading and trailing whitespace characters. -/
def jsTrim (s : String) : String :=
  String.mk (((s.data.dropWhile Char.isWhitespace).reverse.dropWhile Char.isWhitespace).reverse)

/-- The hard-coded message of the missing-session branch of
handleSubmit. -/
def authRequiredMessage : String := "Please sign in to comment."

/-- Shallow embedding of handleSubmit of the Comments component.
The handler sets isSubmitting to true, then, only if the trimmed draft is
non-empty: reads the session from the store; with no session user it
dispatches an error notification and resets isSubmitting; otherwise it
sends one insert to the data service and, on success, prepends the
returned record, clears the draft and dispatches a success notification,
or, on error, dispatches an error notification; the finally clause inside
the non-empty branch resets isSubmitting.  With an empty trimmed draft
the whole guarded block is skipped and isSubmitting is never reset.
The parameter svc is the data service stub answering the insert. -/
def handleSubmit (msgs : FormMessages) (pid : String) (st : PanelState)
    (session : Option Session) (svc : InsertReq → InsertResult) : SubmitOutcome :=
  let st1 : PanelState := { st with isSubmitting := true }
  if jsTrim st1.commentText ≠ "" then
    match session.bind (fun s => s.user) with
    | none =>
      { state := { st1 with isSubmitting := false }
        notifications := [{ message := authRequiredMessage, isError := true }]
        insertCalls := [] }
    | some u =>
      let req : InsertReq :=
        { post_id := pid, comment_text := st1.commentText, user_id := u.id }
      match svc req with
      | InsertResult.ok record =>
        { state := { st1 with
                      comments := record :: st1.comments
                      commentText := ""
                      isSubmitting := false }
          notifications := [{ message := msgs.success, isError := false }]
          insertCalls := [req] }
      | InsertResult.err _ =>
        { state := { st1 with isSubmitting := false }
          notifications := [{ message := msgs.error, isError := true }]
          insertCalls := [req] }
  else
    { state := st1, notifications := [], insertCalls := [] }

/-- The disabled attribute of the submit button in the Comments render:
disabled while isSubmitting is true. -/
def submitDisabled (st : PanelState) : Bool := st.isSubmitting

/-- The panel state while a submit is awaiting the insert response: the
only state mutation handleSubmit performs before its await point is
setIsSubmitting(true). -/
def midFlight (st : PanelState) : PanelState := { st with isSubmitting := true }

/-- A user-initiated submit through the panel UI.  The form submit event
reaches handleSubmit only through the submit button, which the render
disables while isSubmitting is true, so a submit attempted in that state
does nothing. -/
def attemptSubmit (msgs : FormMessages) (pid : String) (st : PanelState)
    (session : Option Session) (svc : InsertReq → InsertResult) : SubmitOutcome :=
  if submitDisabled st then { state := st, notifications := [], insertCalls := [] }
  else handleSubmit msgs pid st session svc

/-- Result of the auth service get-session call in the shape the store
destructures: an optional session under data, and an optional error.
The auth client resolves failures in-band (a failed fetch resolves with a
null session and a non-null error; the call does not reject), and the
store reads only the session field. -/
structure GetSessionResult where
  session : Option Session
  error : Option String
deriving DecidableEq

/-- State of the session store: the stored session, the loading flag, and
the registered listeners (identified by numbers; a JS Set iterated in
insertion order, without duplicates). -/
structure AuthStoreState where
  session : Option Session
  loading : Bool
  listeners : List Nat
deriving DecidableEq

/-- One listener invocation performed by the store: the listener identity
and the session and loading values passed to it. -/
abbrev Invocation := Nat × Option Session × Bool

/-- The invocations notify() performs: every registered listener, in
order, receives the current session and loading values. -/
def notifyCalls (st : AuthStoreState) : List Invocation :=
  st.listeners.map (fun l => (l, st.session, st.loading))

/-- Set.add semantics of the listener set: append if not yet present. -/
def addListener (l : Nat) (ls : List Nat) : List Nat :=
  if l ∈ ls then ls else ls ++ [l]

/-- Embedding of authStore.subscribe: adds the listener to the set and
invokes it once, synchronously, with the currently stored session and
loading values. -/
def subscribe (st : AuthStoreState) (l : Nat) : AuthStoreState × List Invocation :=
  ({ st with listeners := addListener l st.listeners },
   [(l, st.session, st.loading)])

/-- Embedding of the unsubscribe closure returned by subscribe:
Set.delete of the listener; no invocation. -/
def unsubscribe (st : AuthStoreState) (l : Nat) : AuthStoreState × List Invocation :=
  ({ st with listeners := st.listeners.filter (fun x => !(x == l)) }, [])

/-- Embedding of authStore.setLoading: stores the flag and notifies all
listeners. -/
def setLoading (st : AuthStoreState) (b : Bool) : AuthStoreState × List Invocation :=
  let st1 : AuthStoreState := { st with loading := b }
  (st1, notifyCalls st1)

/-- Embedding of the onAuthStateChange callback registered by the store:
compares the delivered session to the stored one (JSON.stringify
comparison, modelled as structural equality) and, only when different,
replaces the stored session and notifies all listeners. -/
def onAuthChange (st : AuthStoreState) (newSession : Option Session) :
    AuthStoreState × List Invocation :=
  if st.session ≠ newSession then
    let st1 : AuthStoreState := { st with session := newSession }
    (st1, notifyCalls st1)
  else (st, [])

/-- Embedding of the store startup routine: setLoading(true) (which
notifies), then the awaited get-session call whose session field is
stored as is (the error field is not read), then setLoading(false)
(which notifies), then one more notify().  The parameter r is the
resolved result of the get-session call. -/
def initStore (st : AuthStoreState) (r : GetSessionResult) :
    AuthStoreState × List Invocation :=
  let p1 := setLoading st true
  let st2 : AuthStoreState := { p1.1 with session := r.session }
  let p3 := setLoading st2 false
  (p3.1, p1.2 ++ p3.2 ++ notifyCalls p3.1)

/-- The operations through which the store state can evolve. -/
inductive StoreAction where
  | sub (l : Nat)
  | unsub (l : Nat)
  | setLoad (b : Bool)
  | change (s : Option Session)
  | fire
  | startup (r : GetSessionResult)
deriving DecidableEq

/-- One store operation applied to a state. -/
def stepStore (st : AuthStoreState) : StoreAction → AuthStoreState × List Invocation
  | StoreAction.sub l => subscribe st l
  | StoreAction.unsub l => unsubscribe st l
  | StoreAction.setLoad b => setLoading st b
  | StoreAction.change s => onAuthChange st s
  | StoreAction.fire => (st, notifyCalls st)
  | StoreAction.startup r => initStore st r

/-- A sequence of store operations, collecting all listener
invocations. -/
def runStore (st : AuthStoreState) : List StoreAction → AuthStoreState × List Invocation
  | [] => (st, [])
  | a :: as =>
    let p := stepStore st a
    let q := runStore p.1 as
    (q.1, p.2 ++ q.2)

/-- Number of invocations of one particular listener in an invocation
log. -/
def callsTo (l : Nat) (evs : List Invocation) : Nat :=
  (evs.filter (fun e => e.1 == l)).length

/-- Concrete localized form messages, for the spot-check theorems. -/
def msgsEn : FormMessages :=
  { success := "Comment submitted successfully."
    error := "Error submitting comment." }

/-- A concrete signed-in user. -/
def userA : AuthUser := { id := "user-1" }

/-- A concrete session carrying userA. -/
def sessA : Session := { user := some userA, access_token := "tok-a" }

/-- A concrete comment record as returned by a successful insert. -/
def recA : Comment :=
  { comment_text := "hello"
    created_at := "2025-01-01T00:00:00Z"
    profiles := some { first_name := some "Amir", last_name := some "M" } }

/-- A concrete panel state with a non-blank draft. -/
def panelA : PanelState :=
  { comments := [], commentText := "hello", isSubmitting := false }

/-- A concrete panel state whose draft trims to the empty string. -/
def panelBlank : PanelState :=
  { comments := [], commentText := "   ", isSubmitting := false }

/-- A data service stub whose insert succeeds with recA. -/
def svcOk : InsertReq → InsertResult := fun _ => InsertResult.ok recA

/-- A data service stub whose insert fails. -/
def svcFail : InsertReq → InsertResult := fun _ => InsertResult.err "insert failed"

/-- A concrete store state with two registered listeners. -/
def stA : AuthStoreState :=
  { session := some sessA, loading := false, listeners := [0, 1] }

/-- A concrete freshly created store state. -/
def stB : AuthStoreState := { session := none, loading := true, listeners := [] }

/-- A concrete sequence of store operations, none of which re-subscribes
listener 7. -/
def actsA : List StoreAction :=
  [StoreAction.change (some sessA), StoreAction.fire, StoreAction.setLoad false,
   StoreAction.sub 3, StoreAction.startup { session := none, error := some "offline" },
   StoreAction.unsub 3]

/-- Branch equation of handleSubmit: a draft that trims to the empty
string skips the whole guarded block, so nothing is dispatched, nothing
is inserted, and isSubmitting stays true. -/
theorem handleSubmit_blank (msgs : FormMessages) (pid : String) (st : PanelState)
    (session : Option Session) (svc : InsertReq → InsertResult)
    (hbody : jsTrim st.commentText = "") :
    handleSubmit msgs pid st session svc =
      { state := { st with isSubmitting := true }
        notifications := []
        insertCalls := [] } := by
  unfold handleSubmit
  simp [hbody]

/-- Branch equation of handleSubmit: non-blank draft, no session user. -/
theorem handleSubmit_noUser (msgs : FormMessages) (pid : String) (st : PanelState)
    (session : Option Session) (svc : InsertReq → InsertResult)
    (hbody : jsTrim st.commentText ≠ "")
    (hsess : session.bind (fun s => s.user) = none) :
    handleSubmit msgs pid st session svc =
      { state := { st with isSubmitting := false }
        notifications := [{ message := authRequiredMessage, isError := true }]
        insertCalls := [] } := by
  unfold handleSubmit
  simp [hbody, hsess]

/-- Branch equation of handleSubmit: non-blank draft, session user
present, insert succeeds. -/
theorem handleSubmit_ok (msgs : FormMessages) (pid : String) (st : PanelState)
    (session : Option Session) (svc : InsertReq → InsertResult)
    (u : AuthUser) (record : Comment)
    (hbody : jsTrim st.commentText ≠ "")
    (hsess : session.bind (fun s => s.user) = some u)
    (hsvc : svc { post_id := pid, comment_text := st.commentText, user_id := u.id } =
      InsertResult.ok record) :
    handleSubmit msgs pid st session svc =
      { state := { comments := record :: st.comments
                   commentText := ""
                   isSubmitting := false }
        notifications := [{ message := msgs.success, isError := false }]
        insertCalls := [{ post_id := pid, comment_text := st.commentText, user_id := u.id }] } := by
  unfold handleSubmit
  simp [hbody, hsess, hsvc]

/-- Branch equation of handleSubmit: non-blank draft, session user
present, insert fails. -/
theorem handleSubmit_err (msgs : FormMessages) (pid : String) (st : PanelState)
    (session : Option Session) (svc : InsertReq → InsertResult)
    (u : AuthUser) (e : String)
    (hbody : jsTrim st.commentText ≠ "")
    (hsess : session.bind (fun s => s.user) = some u)
    (hsvc : svc { post_id := pid, comment_text := st.commentText, user_id := u.id } =
      InsertResult.err e) :
    handleSubmit msgs pid st session svc =
      { state := { st with isSubmitting := false }
        notifications := [{ message := msgs.error, isError := true }]
        insertCalls := [{ post_id := pid, comment_text := st.commentText, user_id := u.id }] } := by
  unfold handleSubmit
  simp [hbody, hsess, hsvc]

/-- Helper: one handleSubmit invocation sends at most one insert request
to the data service, over all of its branches. -/
theorem handleSubmit_at_most_one_insert (msgs : FormMessages) (pid : String)
    (st : PanelState) (session : Option Session) (svc : InsertReq → InsertResult) :
    (handleSubmit msgs pid st session svc).insertCalls.length ≤ 1 := by
  by_cases hbody : jsTrim st.commentText = ""
  · rw [handleSubmit_blank msgs pid st session svc hbody]
    simp
  · cases hsess : session.bind (fun s => s.user) with
    | none =>
      rw [handleSubmit_noUser msgs pid st session svc hbody hsess]
      simp
    | some u =>
      cases hsvc : svc { post_id := pid, comment_text := st.commentText, user_id := u.id } with
      | ok record =>
        rw [handleSubmit_ok msgs pid st session svc u record hbody hsess hsvc]
        simp
      | err e =>
        rw [handleSubmit_err msgs pid st session svc u e hbody hsess hsvc]
        simp

/-- C1: a submit with a non-blank draft and no current session user never
invokes the insert operation; the outcome is the authentication-required
error notification, and the comment list and the draft text are
unchanged. -/
theorem submit_no_session_rejected (msgs : FormMessages) (pid : String) (st : PanelState)
    (session : Option Session) (svc : InsertReq → InsertResult)
    (hbody : jsTrim st.commentText ≠ "")
    (hsess : session.bind (fun s => s.user) = none) :
    (handleSubmit msgs pid st session svc).insertCalls = [] ∧
    (handleSubmit msgs pid st session svc).notifications =
      [{ message := authRequiredMessage, isError := true }] ∧
    (handleSubmit msgs pid st session svc).state.comments = st.comments ∧
    (handleSubmit msgs pid st session svc).state.commentText = st.commentText := by
  rw [handleSubmit_noUser msgs pid st session svc hbody hsess]
  exact ⟨rfl, rfl, rfl, rfl⟩

/-- C1 spot check: the no-session theorem applied at a concrete input. -/
theorem submit_no_session_rejected_spot :
    (handleSubmit msgsEn "post-1" panelA none svcOk).insertCalls = [] ∧
    (handleSubmit msgsEn "post-1" panelA none svcOk).notifications =
      [{ message := authRequiredMessage, isError := true }] ∧
    (handleSubmit msgsEn "post-1" panelA none svcOk).state.comments = panelA.comments ∧
    (handleSubmit msgsEn "post-1" panelA none svcOk).state.commentText = panelA.commentText :=
  submit_no_session_rejected msgsEn "post-1" panelA none svcOk (by decide) rfl

/-- C2: a submit whose draft trims to the empty string never invokes the
insert operation, whatever the session and the data service answer. -/
theorem submit_blank_never_inserts (msgs : FormMessages) (pid : String) (st : PanelState)
    (session : Option Session) (svc : InsertReq → InsertResult)
    (hbody : jsTrim st.commentText = "") :
    (handleSubmit msgs pid st session svc).insertCalls = [] := by
  rw [handleSubmit_blank msgs pid st session svc hbody]

/-- C2 spot check: the blank-draft theorem applied at a concrete input. -/
theorem submit_blank_never_inserts_spot :
    (handleSubmit msgsEn "post-1" panelBlank (some sessA) svcOk).insertCalls = [] :=
  submit_blank_never_inserts msgsEn "post-1" panelBlank (some sessA) svcOk (by decide)

/-- C3: a submit with a non-blank draft and a session user, whose insert
succeeds with a record, prepends that record to the comment list (the
previous list following unchanged) and clears the draft. -/
theorem submit_success_prepends_clears (msgs : FormMessages) (pid : String) (st : PanelState)
    (session : Option Session) (svc : InsertReq → InsertResult)
    (u : AuthUser) (record : Comment)
    (hbody : jsTrim st.commentText ≠ "")
    (hsess : session.bind (fun s => s.user) = some u)
    (hsvc : svc { post_id := pid, comment_text := st.commentText, user_id := u.id } =
      InsertResult.ok record) :
    (handleSubmit msgs pid st session svc).state.comments = record :: st.comments ∧
    (handleSubmit msgs pid st session svc).state.commentText = "" := by
  rw [handleSubmit_ok msgs pid st session svc u record hbody hsess hsvc]
  exact ⟨rfl, rfl⟩

/-- C3 spot check: the success theorem applied at a concrete input. -/
theorem submit_success_prepends_clears_spot :
    (handleSubmit msgsEn "post-1" panelA (some sessA) svcOk).state.comments =
      recA :: panelA.comments ∧
    (handleSubmit msgsEn "post-1" panelA (some sessA) svcOk).state.commentText = "" :=
  submit_success_prepends_clears msgsEn "post-1" panelA (some sessA) svcOk userA recA
    (by decide) rfl rfl

/-- C4: a submit with a non-blank draft and a session user, whose insert
fails, leaves the comment list unchanged, leaves the draft text equal to
the submitted text, and dispatches the error notification. -/
theorem submit_failure_preserves_draft (msgs : FormMessages) (pid : String) (st : PanelState)
    (session : Option Session) (svc : InsertReq → InsertResult)
    (u : AuthUser) (e : String)
    (hbody : jsTrim st.commentText ≠ "")
    (hsess : session.bind (fun s => s.user) = some u)
    (hsvc : svc { post_id := pid, comment_text := st.commentText, user_id := u.id } =
      InsertResult.err e) :
    (handleSubmit msgs pid st session svc).state.comments = st.comments ∧
    (handleSubmit msgs pid st session svc).state.commentText = st.commentText ∧
    (handleSubmit msgs pid st session svc).notifications =
      [{ message := msgs.error, isError := true }] := by
  rw [handleSubmit_err msgs pid st session svc u e hbody hsess hsvc]
  exact ⟨rfl, rfl, rfl⟩

/-- C4 spot check: the failing-insert theorem applied at a concrete
input. -/
theorem submit_failure_preserves_draft_spot :
    (handleSubmit msgsEn "post-1" panelA (some sessA) svcFail).state.comments =
      panelA.comments ∧
    (handleSubmit msgsEn "post-1" panelA (some sessA) svcFail).state.commentText =
      panelA.commentText ∧
    (handleSubmit msgsEn "post-1" panelA (some sessA) svcFail).notifications =
      [{ message := msgsEn.error, isError := true }] :=
  submit_failure_preserves_draft msgsEn "post-1" panelA (some sessA) svcFail userA
    "insert failed" (by decide) rfl rfl

/-- C7 fails as stated: a concrete submit attempt whose draft trims to
the empty string dispatches zero user-visible notifications, not exactly
one. -/
theorem submit_blank_zero_notifications :
    (handleSubmit msgsEn "post-1" panelBlank (some sessA) svcOk).notifications = [] ∧
    (handleSubmit msgsEn "post-1" panelBlank (some sessA) svcOk).notifications.length ≠ 1 := by
  rw [handleSubmit_blank msgsEn "post-1" panelBlank (some sessA) svcOk (by decide)]
  exact ⟨rfl, by decide⟩

/-- C7 amended: a submit attempt with a non-blank draft dispatches
exactly one notification over every branch (missing session, successful
insert, failing insert); an attempt whose draft trims to the empty string
dispatches none. -/
theorem submit_notification_count (msgs : FormMessages) (pid : String) (st : PanelState)
    (session : Option Session) (svc : InsertReq → InsertResult) :
    (jsTrim st.commentText ≠ "" →
      (handleSubmit msgs pid st session svc).notifications.length = 1) ∧
    (jsTrim st.commentText = "" →
      (handleSubmit msgs pid st session svc).notifications = []) := by
  constructor
  · intro hbody
    cases hsess : session.bind (fun s => s.user) with
    | none =>
      rw [handleSubmit_noUser msgs pid st session svc hbody hsess]
      rfl
    | some u =>
      cases hsvc : svc { post_id := pid, comment_text := st.commentText, user_id := u.id } with
      | ok record =>
        rw [handleSubmit_ok msgs pid st session svc u record hbody hsess hsvc]
        rfl
      | err e =>
        rw [handleSubmit_err msgs pid st session svc u e hbody hsess hsvc]
        rfl
  · intro hbody
    rw [handleSubmit_blank msgs pid st session svc hbody]

/-- C7 amended, spot check: one notification on a non-blank attempt, zero
on a blank one, at concrete inputs. -/
theorem submit_notification_count_spot :
    (handleSubmit msgsEn "post-1" panelA (some sessA) svcOk).notifications.length = 1 ∧
    (handleSubmit msgsEn "post-2" panelBlank (some sessA) svcFail).notifications = [] :=
  ⟨(submit_notification_count msgsEn "post-1" panelA (some sessA) svcOk).1 (by decide),
   (submit_notification_count msgsEn "post-2" panelBlank (some sessA) svcFail).2 (by decide)⟩

/-- C8: while a submit is in flight (the only panel mutation performed
before the await point is isSubmitting set to true), a second
user-initiated submit on the same panel does nothing, because the submit
button is disabled; over the pair of attempts at most one insert request
is sent to the data service. -/
theorem inflight_second_submit_noop (msgs msgs2 : FormMessages) (pid pid2 : String)
    (st : PanelState) (session session2 : Option Session)
    (svc svc2 : InsertReq → InsertResult) :
    attemptSubmit msgs2 pid2 (midFlight st) session2 svc2 =
      { state := midFlight st, notifications := [], insertCalls := [] } ∧
    (handleSubmit msgs pid st session svc).insertCalls.length +
      (attemptSubmit msgs2 pid2 (midFlight st) session2 svc2).insertCalls.length ≤ 1 := by
  have hno : attemptSubmit msgs2 pid2 (midFlight st) session2 svc2 =
      { state := midFlight st, notifications := [], insertCalls := [] } := by
    unfold attemptSubmit submitDisabled midFlight
    simp
  refine ⟨hno, ?_⟩
  rw [hno]
  simpa using handleSubmit_at_most_one_insert msgs pid st session svc

/-- C10: a submit whose draft trims to the empty string sets isSubmitting
at the start and no path of that invocation resets it: the state after
the call is exactly the input state with isSubmitting true, so the submit
button stays disabled. -/
theorem submit_blank_sticks_submitting (msgs : FormMessages) (pid : String)
    (st : PanelState) (session : Option Session) (svc : InsertReq → InsertResult)
    (hbody : jsTrim st.commentText = "") :
    (handleSubmit msgs pid st session svc).state = { st with isSubmitting := true } ∧
    submitDisabled (handleSubmit msgs pid st session svc).state = true := by
  rw [handleSubmit_blank msgs pid st session svc hbody]
  exact ⟨rfl, rfl⟩

/-- C10 spot check: the stuck-submitting theorem applied at a concrete
input. -/
theorem submit_blank_sticks_submitting_spot :
    (handleSubmit msgsEn "post-1" panelBlank (some sessA) svcOk).state =
      { panelBlank with isSubmitting := true } ∧
    submitDisabled (handleSubmit msgsEn "post-1" panelBlank (some sessA) svcOk).state = true :=
  submit_blank_sticks_submitting msgsEn "post-1" panelBlank (some sessA) svcOk (by decide)

/-- Splitting an invocation log across an append. -/
theorem callsTo_append (l : Nat) (a b : List Invocation) :
    callsTo l (a ++ b) = callsTo l a + callsTo l b := by
  unfold callsTo
  rw [List.filter_append, List.length_append]

/-- A listener that is not in the set receives nothing from notify. -/
theorem callsTo_notifyCalls_of_not_mem (l : Nat) (st : AuthStoreState)
    (h : l ∉ st.listeners) :
    callsTo l (notifyCalls st) = 0 := by
  unfold callsTo notifyCalls
  rw [List.length_eq_zero, List.filter_eq_nil_iff]
  intro e he
  rcases List.mem_map.mp he with ⟨x, hx, rfl⟩
  simp only [beq_iff_eq]
  intro hxl
  exact h (hxl ▸ hx)

/-- A listener that is in the set is invoked by notify. -/
theorem callsTo_notifyCalls_pos (l : Nat) (st : AuthStoreState)
    (h : l ∈ st.listeners) :
    callsTo l (notifyCalls st) ≠ 0 := by
  unfold callsTo notifyCalls
  intro hzero
  rw [List.length_eq_zero, List.filter_eq_nil_iff] at hzero
  have hmem : ((l, st.session, st.loading) : Invocation) ∈
      st.listeners.map (fun x => (x, st.session, st.loading)) :=
    List.mem_map.mpr ⟨l, h, rfl⟩
  exact (hzero _ hmem) (by simp)

/-- The subscribing listener is in the set afterwards. -/
theorem mem_addListener_self (l : Nat) (ls : List Nat) : l ∈ addListener l ls := by
  unfold addListener
  by_cases h : l ∈ ls
  · rw [if_pos h]
    exact h
  · rw [if_neg h]
    exact List.mem_append.mpr (Or.inr (List.mem_singleton.mpr rfl))

/-- Adding a different listener keeps an absent listener absent. -/
theorem not_mem_addListener (l x : Nat) (ls : List Nat) (hne : x ≠ l) (h : l ∉ ls) :
    l ∉ addListener x ls := by
  unfold addListener
  by_cases hmem : x ∈ ls
  · rw [if_pos hmem]
    exact h
  · rw [if_neg hmem]
    intro hc
    rcases List.mem_append.mp hc with h1 | h2
    · exact h h1
    · exact hne (List.mem_singleton.mp h2).symm

/-- One store operation that is not a re-subscribe of an absent listener
keeps it absent and invokes it zero times. -/
theorem stepStore_silent (st : AuthStoreState) (l : Nat) (a : StoreAction)
    (hmem : l ∉ st.listeners) (ha : a ≠ StoreAction.sub l) :
    l ∉ (stepStore st a).1.listeners ∧ callsTo l (stepStore st a).2 = 0 := by
  cases a with
  | sub x =>
    have hne : x ≠ l := fun h => ha (by rw [h])
    constructor
    · exact not_mem_addListener l x st.listeners hne hmem
    · unfold stepStore subscribe callsTo
      simp [hne]
  | unsub x =>
    constructor
    · intro hc
      exact hmem (List.mem_of_mem_filter hc)
    · rfl
  | setLoad b =>
    exact ⟨hmem, callsTo_notifyCalls_of_not_mem l _ hmem⟩
  | change s =>
    show l ∉ (onAuthChange st s).1.listeners ∧ callsTo l (onAuthChange st s).2 = 0
    unfold onAuthChange
    by_cases hs : st.session ≠ s
    · rw [if_pos hs]
      exact ⟨hmem, callsTo_notifyCalls_of_not_mem l _ hmem⟩
    · rw [if_neg hs]
      exact ⟨hmem, rfl⟩
  | fire =>
    exact ⟨hmem, callsTo_notifyCalls_of_not_mem l st hmem⟩
  | startup r =>
    refine ⟨hmem, ?_⟩
    show callsTo l (initStore st r).2 = 0
    unfold initStore setLoading
    dsimp only
    rw [callsTo_append, callsTo_append]
    rw [callsTo_notifyCalls_of_not_mem l
        { session := st.session, loading := true, listeners := st.listeners } hmem,
      callsTo_notifyCalls_of_not_mem l
        { session := r.session, loading := false, listeners := st.listeners } hmem]

/-- A sequence of store operations none of which re-subscribes an absent
listener keeps it absent and invokes it zero times. -/
theorem runStore_silent (l : Nat) (acts : List StoreAction) :
    ∀ st : AuthStoreState, l ∉ st.listeners →
      (∀ a ∈ acts, a ≠ StoreAction.sub l) →
      l ∉ (runStore st acts).1.listeners ∧ callsTo l (runStore st acts).2 = 0 := by
  induction acts with
  | nil =>
    intro st h _
    exact ⟨h, rfl⟩
  | cons a as ih =>
    intro st h hacts
    have h1 := stepStore_silent st l a h (hacts a (List.mem_cons_self a as))
    have h2 := ih (stepStore st a).1 h1.1 (fun b hb => hacts b (List.mem_cons_of_mem a hb))
    constructor
    · exact h2.1
    · show callsTo l ((stepStore st a).2 ++ (runStore (stepStore st a).1 as).2) = 0
      rw [callsTo_append, h1.2, h2.2]

/-- C5: subscribe invokes the listener exactly once, synchronously, with
the currently stored session and loading values; while subscribed, every
delivered change to a structurally different session invokes it again;
and after subscribing and immediately unsubscribing, any sequence of
store operations that never re-subscribes that listener invokes it zero
further times. -/
theorem subscribe_replays_once_then_silent (st : AuthStoreState) (l : Nat)
    (acts : List StoreAction)
    (hacts : ∀ a ∈ acts, a ≠ StoreAction.sub l) :
    (subscribe st l).2 = [(l, st.session, st.loading)] ∧
    (∀ s : Option Session, (subscribe st l).1.session ≠ s →
      callsTo l (onAuthChange (subscribe st l).1 s).2 ≠ 0) ∧
    callsTo l (runStore (unsubscribe (subscribe st l).1 l).1 acts).2 = 0 := by
  refine ⟨rfl, ?_, ?_⟩
  · intro s hs
    unfold onAuthChange
    rw [if_pos hs]
    exact callsTo_notifyCalls_pos l _ (mem_addListener_self l st.listeners)
  · have hnot : l ∉ ((unsubscribe (subscribe st l).1 l).1).listeners := by
      intro hc
      have hmf := List.mem_filter.mp hc
      simp at hmf
    exact (runStore_silent l acts _ hnot hacts).2

/-- C5 spot check: one immediate invocation on subscribe, and zero
invocations across a concrete operation sequence after unsubscribing, at
concrete inputs. -/
theorem subscribe_replays_once_then_silent_spot :
    (subscribe stA 7).2 = [(7, stA.session, stA.loading)] ∧
    callsTo 7 (runStore (unsubscribe (subscribe stA 7).1 7).1 actsA).2 = 0 := by
  have h := subscribe_replays_once_then_silent stA 7 actsA (by decide)
  exact ⟨h.1, h.2.2⟩

/-- C6: when the get-session call resolves as a failure (no session,
together with an error value the code never reads), the startup routine
stores the absent session and ends not loading: the store is Signed-Out,
and, the embedding of the routine being a total function, nothing is
raised to its caller. -/
theorem initStore_failed_fetch_signed_out (st : AuthStoreState) (r : GetSessionResult)
    (h : r.session = none) :
    (initStore st r).1.session = none ∧ (initStore st r).1.loading = false := by
  unfold initStore setLoading
  exact ⟨h, rfl⟩

/-- C6 spot check: a concrete failed fetch leaves a concrete store
Signed-Out. -/
theorem initStore_failed_fetch_spot :
    (initStore stB { session := none, error := some "network failure" }).1.session = none ∧
    (initStore stB { session := none, error := some "network failure" }).1.loading = false :=
  initStore_failed_fetch_signed_out stB
    { session := none, error := some "network failure" } rfl

/-- C9: the auth-change callback replaces the stored session and invokes
the subscribers exactly when the delivered value differs structurally
from the stored one; delivering a value structurally equal to the stored
one changes nothing and invokes no listener. -/
theorem authChange_replace_iff_different (st : AuthStoreState) (s : Option Session) :
    (st.session = s → onAuthChange st s = (st, [])) ∧
    (st.session ≠ s →
      onAuthChange st s =
        ({ st with session := s }, st.listeners.map (fun l => (l, s, st.loading)))) := by
  constructor
  · intro h
    unfold onAuthChange
    rw [if_neg (fun hc => hc h)]
  · intro h
    unfold onAuthChange
    rw [if_pos h]
    rfl

/-- C9 spot check: an equal delivery is a no-op, and a different delivery
replaces the session and invokes both registered listeners, at concrete
inputs. -/
theorem authChange_replace_iff_different_spot :
    onAuthChange stA (some sessA) = (stA, []) ∧
    onAuthChange stA none =
      ({ stA with session := none }, [(0, none, false), (1, none, false)]) := by
  constructor
  · exact (authChange_replace_iff_different stA (some sessA)).1 rfl
  · rw [(authChange_replace_iff_different stA none).2 (by decide)]
    rfl

end Blog
